import Mathlib

/-!
Shallow embedding of the medical-triage round-resolution engine
(`src/game/engine/stochastic_model.py`, `game_state.py`, `config.py`).

The Python engine draws floats from one shared `random.Random` instance.
We model that randomness source as a stream of rationals together with a
position: each call that the Python code makes to `_rng.random()` (or to
`_rng.choice`, which consumes one underlying draw) reads the stream at the
current position and advances it by one.  Python floats are modelled as
exact rationals.
-/

namespace Triage

/-- The shared randomness source: a stream of draws plus the current
position.  `random()` returns `f pos` and advances `pos`. -/
structure Rng where
  f : Nat → ℚ
  pos : Nat

/-- Advance the stream by one, returning the draw. -/
def Rng.next (r : Rng) : ℚ × Rng :=
  (r.f r.pos, ⟨r.f, r.pos + 1⟩)

/-- SeverityLevel from game_state.py. -/
inductive SeverityLevel where
  | MILD
  | MODERATE
  | SEVERE
  | CRITICAL
deriving DecidableEq, Repr

/-- TriageDecision from game_state.py. -/
inductive TriageDecision where
  | TREAT_NOW
  | MONITOR
  | DEFER
  | TRANSFER
deriving DecidableEq, Repr

/-- DifficultyLevel from config.py. -/
inductive DifficultyLevel where
  | BASIC
  | STOCHASTIC
deriving DecidableEq, Repr

-- Configuration constants from config.py.

def TOTAL_ROUNDS : Nat := 5
def INITIAL_SURVIVAL_SCORE : ℚ := 100
def INITIAL_STAFF_STRESS : ℚ := 10
def INITIAL_REPUTATION : ℚ := 60
def BASIC_PATIENTS_PER_ROUND : Nat × Nat := (3, 4)
def STOCH_PATIENTS_PER_ROUND : Nat × Nat := (4, 7)
def BASIC_SEVERE_PROB : ℚ := 0.25
def STOCH_SEVERE_PROB : ℚ := 0.45
def BASIC_DETERIORATE_PROB : ℚ := 0.15
def STOCH_DETERIORATE_PROB : ℚ := 0.35
def MAX_BEDS : ℤ := 5
def MAX_STAFF_CAPACITY : ℤ := 4

/-- Patient from game_state.py. -/
structure Patient where
  id : Nat
  name : String
  severity_visible : SeverityLevel
  severity_hidden_true : SeverityLevel
  arrival_round : Nat
  is_treated : Bool
  is_alive : Bool
  has_left : Bool
deriving DecidableEq, Repr

/-- HospitalState from game_state.py.  Bed/staff counters are Python ints
(modelled as ℤ); the three metrics are floats (modelled as ℚ). -/
structure HospitalState where
  available_beds : ℤ
  staff_capacity_this_round : ℤ
  survival_score : ℚ
  staff_stress : ℚ
  reputation : ℚ
deriving DecidableEq, Repr

/-- RoundSummary from game_state.py.  The decision dict preserves insertion
order in Python, so it is modelled as an association list. -/
structure RoundSummary where
  round_number : Nat
  decisions : List (Nat × TriageDecision)
  patients_treated : List Nat
  patients_died : List Nat
  patients_deteriorated : List Nat
  notes : List String
deriving DecidableEq, Repr

/-- GameState from game_state.py. -/
structure GameState where
  difficulty : DifficultyLevel
  current_round : Nat
  patients : List Patient
  history : List RoundSummary
  hospital : HospitalState
  next_patient_id : Nat

/-- GameState constructed with the dataclass defaults. -/
def GameState.initial (d : DifficultyLevel) : GameState :=
  ⟨d, 1, [], [],
    ⟨MAX_BEDS, MAX_STAFF_CAPACITY,
      INITIAL_SURVIVAL_SCORE, INITIAL_STAFF_STRESS, INITIAL_REPUTATION⟩, 1⟩

/-- GameState.get_patient_by_id: first roster entry with the given id. -/
def get_patient_by_id (gs : GameState) (pid : Nat) : Option Patient :=
  gs.patients.find? (fun p => p.id == pid)

/-- GameState.increment_round. -/
def increment_round (gs : GameState) : GameState :=
  { gs with current_round := gs.current_round + 1,
            hospital := { gs.hospital with
              staff_capacity_this_round := MAX_STAFF_CAPACITY } }

/-- GameState.add_round_summary. -/
def add_round_summary (gs : GameState) (s : RoundSummary) : GameState :=
  { gs with history := gs.history ++ [s] }

-- Severity and probability model (stochastic_model.py helpers).

def patients_per_round (d : DifficultyLevel) : Nat × Nat :=
  if d = DifficultyLevel.BASIC then BASIC_PATIENTS_PER_ROUND
  else STOCH_PATIENTS_PER_ROUND

def severe_probability (d : DifficultyLevel) : ℚ :=
  if d = DifficultyLevel.BASIC then BASIC_SEVERE_PROB else STOCH_SEVERE_PROB

def deterioration_probability (d : DifficultyLevel) : ℚ :=
  if d = DifficultyLevel.BASIC then BASIC_DETERIORATE_PROB
  else STOCH_DETERIORATE_PROB

/-- The `_severity_to_int` mapping (rank 0-3). -/
def severity_to_int : SeverityLevel → ℤ
  | SeverityLevel.MILD => 0
  | SeverityLevel.MODERATE => 1
  | SeverityLevel.SEVERE => 2
  | SeverityLevel.CRITICAL => 3

/-- The `_int_to_severity` mapping: clamps its argument to [0,3] first. -/
def int_to_severity (idx : ℤ) : SeverityLevel :=
  let i := max 0 (min 3 idx)
  if i = 0 then SeverityLevel.MILD
  else if i = 1 then SeverityLevel.MODERATE
  else if i = 2 then SeverityLevel.SEVERE
  else SeverityLevel.CRITICAL

/-- The `_sample_true_severity` two-bucket model: always two draws. -/
def sample_true_severity (severeProb : ℚ) (rng : Rng) : SeverityLevel × Rng :=
  let x := rng.f rng.pos
  let y := rng.f (rng.pos + 1)
  let rng2 : Rng := ⟨rng.f, rng.pos + 2⟩
  if x < severeProb then
    (if y < 0.6 then SeverityLevel.SEVERE else SeverityLevel.CRITICAL, rng2)
  else
    (if y < 0.5 then SeverityLevel.MILD else SeverityLevel.MODERATE, rng2)

/-- The `_noisy_visible_severity` observation model.  `_rng.choice` on a
two-element list consumes one draw; the sign is taken from whether that
draw falls in the lower half. -/
def noisy_visible_severity (trueSeverity : SeverityLevel)
    (difficulty : DifficultyLevel) (rng : Rng) : SeverityLevel × Rng :=
  let trueIdx := severity_to_int trueSeverity
  let r := rng.f rng.pos
  let rng1 : Rng := ⟨rng.f, rng.pos + 1⟩
  if difficulty = DifficultyLevel.BASIC then
    if r < 0.8 then (int_to_severity trueIdx, rng1)
    else
      let c := rng1.f rng1.pos
      let delta : ℤ := if c < 0.5 then -1 else 1
      (int_to_severity (trueIdx + delta), ⟨rng.f, rng.pos + 2⟩)
  else
    if r < 0.6 then (int_to_severity trueIdx, rng1)
    else if r < 0.9 then
      let c := rng1.f rng1.pos
      let delta : ℤ := if c < 0.5 then -1 else 1
      (int_to_severity (trueIdx + delta), ⟨rng.f, rng.pos + 2⟩)
    else
      let c := rng1.f rng1.pos
      let delta : ℤ := if c < 0.5 then -2 else 2
      (int_to_severity (trueIdx + delta), ⟨rng.f, rng.pos + 2⟩)

/-- Base death rate table from `_death_probability`. -/
def base_rate : SeverityLevel → ℚ
  | SeverityLevel.MILD => 0.01
  | SeverityLevel.MODERATE => 0.05
  | SeverityLevel.SEVERE => 0.15
  | SeverityLevel.CRITICAL => 0.30

/-- The `_death_probability` function. -/
def death_probability (trueSeverity : SeverityLevel) (treated : Bool)
    (decision : TriageDecision) : ℚ :=
  let base := base_rate trueSeverity
  if treated then
    if trueSeverity = SeverityLevel.SEVERE ∨
        trueSeverity = SeverityLevel.CRITICAL then base * 0.25
    else base * 0.10
  else if decision = TriageDecision.MONITOR then base * 1.2
  else if decision = TriageDecision.DEFER then base * 2.0
  else if decision = TriageDecision.TRANSFER then base * 1.5
  else base

/-- Clamp a metric to [0,100] as the engine does after every mutation. -/
def clampQ (x : ℚ) : ℚ := max 0 (min 100 x)

/-- The three clamp assignments that end `_update_metrics_for_patient_outcome`
and `apply_player_decisions`. -/
def clampMetrics (h : HospitalState) : HospitalState :=
  { h with survival_score := clampQ h.survival_score,
           staff_stress := clampQ h.staff_stress,
           reputation := clampQ h.reputation }

/-- The `_update_metrics_for_patient_outcome` function (pure on the
hospital record; the patient argument is only read for nothing). -/
def update_metrics_for_patient_outcome (h : HospitalState) (died : Bool)
    (decision : TriageDecision) : HospitalState :=
  let h1 :=
    if died then
      { h with survival_score := h.survival_score - 4.0,
               reputation := h.reputation - 2.0,
               staff_stress := h.staff_stress + 3.0 }
    else
      { h with survival_score := h.survival_score + 0.5,
               reputation := h.reputation + 0.5 }
  let h2 :=
    if decision = TriageDecision.TREAT_NOW then
      { h1 with staff_stress := h1.staff_stress + 1.0,
                reputation := h1.reputation + 0.5 }
    else if decision = TriageDecision.MONITOR then
      { h1 with staff_stress := h1.staff_stress + 0.5 }
    else if decision = TriageDecision.DEFER then
      { h1 with reputation := h1.reputation - 1.0 }
    else if decision = TriageDecision.TRANSFER then
      if h1.available_beds ≤ 0 ∨ h1.staff_capacity_this_round ≤ 0 then
        { h1 with reputation := h1.reputation + 0.5 }
      else
        { h1 with reputation := h1.reputation - 1.0 }
    else h1
  clampMetrics h2

/-- The `_deteriorate_severity_if_needed` function.  (The source also takes
the game state but never reads it.)  Eligible patients always consume one
draw, even when the cap at CRITICAL prevents a step. -/
def deteriorate_severity_if_needed (patient : Patient) (prob : ℚ)
    (rng : Rng) : Bool × Patient × Rng :=
  if patient.is_alive = false ∨ patient.is_treated = true ∨
      patient.has_left = true then
    (false, patient, rng)
  else
    let x := rng.f rng.pos
    let rng1 : Rng := ⟨rng.f, rng.pos + 1⟩
    if x < prob then
      let currentIdx := severity_to_int patient.severity_hidden_true
      if currentIdx < severity_to_int SeverityLevel.CRITICAL then
        (true, { patient with
          severity_hidden_true := int_to_severity (currentIdx + 1) }, rng1)
      else (false, patient, rng1)
    else (false, patient, rng1)

/-- The `_describe_severity` mapping. -/
def describe_severity : SeverityLevel → String
  | SeverityLevel.MILD => "mild"
  | SeverityLevel.MODERATE => "moderate"
  | SeverityLevel.SEVERE => "severe"
  | SeverityLevel.CRITICAL => "critical"

/-- Decision label table inside `_explain_decision_and_outcome`. -/
def decision_label : TriageDecision → String
  | TriageDecision.TREAT_NOW => "treat now"
  | TriageDecision.MONITOR => "monitor"
  | TriageDecision.DEFER => "defer"
  | TriageDecision.TRANSFER => "transfer"

/-- The decision-quality if-chain inside `_explain_decision_and_outcome`;
it reads only the decision and the true severity at decision time. -/
def decision_quality (decision : TriageDecision)
    (trueSeverity : SeverityLevel) : String :=
  if decision = TriageDecision.TREAT_NOW ∧
      (trueSeverity = SeverityLevel.SEVERE ∨
       trueSeverity = SeverityLevel.CRITICAL) then
    "aligned with the high true risk"
  else if decision = TriageDecision.TREAT_NOW ∧
      (trueSeverity = SeverityLevel.MILD ∨
       trueSeverity = SeverityLevel.MODERATE) then
    "conservative, using resources on a lower-risk patient"
  else if (decision = TriageDecision.MONITOR ∨
      decision = TriageDecision.DEFER) ∧
      (trueSeverity = SeverityLevel.SEVERE ∨
       trueSeverity = SeverityLevel.CRITICAL) then
    "risky given the underlying severity"
  else if decision = TriageDecision.TRANSFER ∧
      (trueSeverity = SeverityLevel.SEVERE ∨
       trueSeverity = SeverityLevel.CRITICAL) then
    "high-risk, depending on external capacity"
  else
    "reasonable for the estimated risk"

/-- The explanation string built by `_explain_decision_and_outcome` (the
function appends this to `summary.notes`). -/
def explain_text (pid : Nat) (visible trueSev : SeverityLevel)
    (decision : TriageDecision) (treated died : Bool) : String :=
  let visibleText := describe_severity visible
  let trueText := describe_severity trueSev
  let outcomeText := if died then "died this round" else "survived this round"
  let quality := decision_quality decision trueSev
  let uncertaintyPart :=
    if visible ≠ trueSev then
      "Note: the patient appeared " ++ visibleText ++ ", but was actually " ++
        trueText ++ ", illustrating diagnostic uncertainty."
    else
      "In this case, the visible severity (" ++ visibleText ++
        ") matched the true severity, so uncertainty played a smaller role."
  let treatmentPart :=
    if treated then "You allocated scarce beds/staff to this patient."
    else "You did not allocate full treatment capacity this round."
  "Patient " ++ toString pid ++ ": appeared " ++ visibleText ++
    ", true severity " ++ trueText ++ ". You chose to " ++
    decision_label decision ++ ", which was " ++ quality ++
    ". As a result, the patient " ++ outcomeText ++ ". " ++
    treatmentPart ++ " " ++ uncertaintyPart

/-- The coercion note appended when TREAT_NOW lacks beds or staff. -/
def coercion_note (pid : Nat) : String :=
  "Patient " ++ toString pid ++ ": you attempted to treat, " ++
    "but there were no beds or staff left, so the decision " ++
    "effectively became \x27defer\x27."

/-- Note appended for each deterioration success. -/
def deterioration_note (pid : Nat) : String :=
  "Patient " ++ toString pid ++ ": condition deteriorated due to the " ++
    "stochastic environment (random health changes over time). " ++
    "This models how patients can worsen even without a new decision."

def staff_shortage_scenario : String :=
  "Scenario: A respiratory virus has spread among hospital staff. " ++
    "Several nurses and residents call in sick just before the shift, " ++
    "forcing you to manage with fewer people on the floor."

def staff_shortage_event (original newCapacity : ℤ) : String :=
  "Environment event: unexpected staff shortage reduced staff capacity " ++
    "from " ++ toString original ++ " to " ++ toString newCapacity ++
    " this round, making \x27Treat now\x27 decisions more expensive."

def bed_outage_scenario : String :=
  "Scenario: A burst pipe floods one of the surgical wards. " ++
    "Facilities management has to close several rooms for emergency repairs, " ++
    "leaving you with fewer usable beds."

def bed_outage_event (original newBeds : ℤ) : String :=
  "Environment event: a ward outage made some beds unavailable " ++
    "(" ++ toString original ++ " → " ++ toString newBeds ++
    " beds) this round, tightening your capacity for new admissions."

def surge_scenario : String :=
  "Scenario: A multi-vehicle highway collision and a local festival outbreak " ++
    "hit the region at the same time. Incoming patients are more unstable, " ++
    "and those waiting in the hospital are at higher risk of sudden decline."

def surge_event : String :=
  "Environment event: deterioration risk for untreated patients increased " ++
    "this round due to the external surge in severe cases."

def quiet_scenario_a : String :=
  "Scenario: This round represents a relatively routine shift. " ++
    "Uncertainty still exists at the patient level, but there are no " ++
    "major external disruptions to hospital operations."

def quiet_scenario_b : String :=
  "Scenario: Community conditions are stable this round. " ++
    "Your main challenge is triaging with incomplete information " ++
    "rather than reacting to large external crises."

/-- Result of the environment-shock step. -/
structure ShockResult where
  gs : GameState
  summary : RoundSummary
  prob : ℚ
  rng : Rng

/-- The `_apply_environment_shocks` function.  `int(round(x))` on a
nonnegative float is modelled by `round` on ℚ. -/
def apply_environment_shocks (gs : GameState) (summary : RoundSummary)
    (baseProb : ℚ) (rng : Rng) : ShockResult :=
  if gs.difficulty ≠ DifficultyLevel.STOCHASTIC then
    ⟨gs, summary, baseProb, rng⟩
  else
    let roll := rng.f rng.pos
    let rng1 : Rng := ⟨rng.f, rng.pos + 1⟩
    if roll < 0.20 then
      let original := gs.hospital.staff_capacity_this_round
      let newCapacity := max 1 (round ((original : ℚ) * 0.6))
      ⟨{ gs with hospital :=
          { gs.hospital with staff_capacity_this_round := newCapacity } },
        { summary with notes := summary.notes ++
          [staff_shortage_scenario, staff_shortage_event original newCapacity] },
        baseProb, rng1⟩
    else if roll < 0.40 then
      let original := gs.hospital.available_beds
      if 0 < original then
        let reduction := max 1 (original / 2)
        let newBeds := max 0 (original - reduction)
        ⟨{ gs with hospital :=
            { gs.hospital with available_beds := newBeds } },
          { summary with notes := summary.notes ++
            [bed_outage_scenario, bed_outage_event original newBeds] },
          baseProb, rng1⟩
      else ⟨gs, summary, baseProb, rng1⟩
    else if roll < 0.60 then
      ⟨gs,
        { summary with notes := summary.notes ++ [surge_scenario, surge_event] },
        min 0.9 (baseProb * 1.7), rng1⟩
    else
      let quietRoll := rng1.f rng1.pos
      let rng2 : Rng := ⟨rng.f, rng.pos + 2⟩
      if quietRoll < 0.5 then
        ⟨gs, { summary with notes := summary.notes ++ [quiet_scenario_a] },
          baseProb, rng2⟩
      else
        ⟨gs, { summary with notes := summary.notes ++ [quiet_scenario_b] },
          baseProb, rng2⟩

/-- Replace the first roster entry carrying the given id (Python mutates
the object returned by `get_patient_by_id`, which is the first match). -/
def updateFirst (ps : List Patient) (pid : Nat) (f : Patient → Patient) :
    List Patient :=
  match ps with
  | [] => []
  | p :: rest =>
    if p.id == pid then f p :: rest else p :: updateFirst rest pid f

/-- Result of one iteration of the decision loop (and of the whole loop). -/
structure StepResult where
  gs : GameState
  summary : RoundSummary
  rng : Rng

/-- One iteration of the decision loop in `apply_player_decisions`:
eligibility check, TREAT_NOW resource gate with coercion to DEFER,
TRANSFER early return, shared outcome sampling, metric update and
narrative note. -/
def process_decision (gs : GameState) (summary : RoundSummary) (pid : Nat)
    (decision : TriageDecision) (rng : Rng) : StepResult :=
  match get_patient_by_id gs pid with
  | none => ⟨gs, summary, rng⟩
  | some patient =>
    if patient.is_alive = false ∨ patient.has_left = true then
      ⟨gs, summary, rng⟩
    else
      let trueSev := patient.severity_hidden_true
      let visSev := patient.severity_visible
      if decision = TriageDecision.TRANSFER then
        let x := rng.f rng.pos
        let rng1 : Rng := ⟨rng.f, rng.pos + 1⟩
        let died :=
          decide (x < death_probability trueSev false TriageDecision.TRANSFER)
        let patient2 := { patient with has_left := true, is_alive := !died }
        let summary1 :=
          if died then
            { summary with patients_died := summary.patients_died ++ [pid] }
          else summary
        let hosp1 :=
          update_metrics_for_patient_outcome gs.hospital died
            TriageDecision.TRANSFER
        let summary2 := { summary1 with notes := summary1.notes ++
          [explain_text pid visSev trueSev TriageDecision.TRANSFER false died] }
        let roster := updateFirst gs.patients pid (fun _ => patient2)
        ⟨{ gs with patients := roster, hospital := hosp1 }, summary2, rng1⟩
      else
        let treated :=
          decide (decision = TriageDecision.TREAT_NOW ∧
            0 < gs.hospital.staff_capacity_this_round ∧
            0 < gs.hospital.available_beds)
        let decision1 :=
          if decision = TriageDecision.TREAT_NOW ∧ treated = false then
            TriageDecision.DEFER
          else decision
        let hospA :=
          if treated then
            { gs.hospital with
              staff_capacity_this_round :=
                gs.hospital.staff_capacity_this_round - 1,
              available_beds := gs.hospital.available_beds - 1 }
          else gs.hospital
        let summaryA :=
          if treated then
            { summary with
              patients_treated := summary.patients_treated ++ [pid] }
          else if decision = TriageDecision.TREAT_NOW then
            { summary with notes := summary.notes ++ [coercion_note pid] }
          else summary
        let patientA :=
          if treated then { patient with is_treated := true } else patient
        let x := rng.f rng.pos
        let rng1 : Rng := ⟨rng.f, rng.pos + 1⟩
        let died := decide (x < death_probability trueSev treated decision1)
        let patient2 :=
          if died then { patientA with is_alive := false } else patientA
        let summaryB :=
          if died then
            { summaryA with patients_died := summaryA.patients_died ++ [pid] }
          else summaryA
        let hospB := update_metrics_for_patient_outcome hospA died decision1
        let summaryC := { summaryB with notes := summaryB.notes ++
          [explain_text pid visSev trueSev decision1 treated died] }
        let roster := updateFirst gs.patients pid (fun _ => patient2)
        ⟨{ gs with patients := roster, hospital := hospB }, summaryC, rng1⟩

/-- The decision loop: left-to-right over the submitted map, in insertion
order. -/
def process_all (decisions : List (Nat × TriageDecision)) (gs : GameState)
    (summary : RoundSummary) (rng : Rng) : StepResult :=
  match decisions with
  | [] => ⟨gs, summary, rng⟩
  | (pid, d) :: rest =>
    let r := process_decision gs summary pid d rng
    process_all rest r.gs r.summary r.rng

/-- Result of the deterioration pass. -/
structure DetResult where
  patients : List Patient
  ids : List Nat
  notes : List String
  rng : Rng

/-- The deterioration loop of `apply_player_decisions`: alive, present,
untreated patients each face one draw; successes are recorded with a
note. -/
def deterioration_pass (ps : List Patient) (prob : ℚ) (rng : Rng) :
    DetResult :=
  match ps with
  | [] => ⟨[], [], [], rng⟩
  | p :: rest =>
    if p.is_alive = false ∨ p.has_left = true then
      let r := deterioration_pass rest prob rng
      ⟨p :: r.patients, r.ids, r.notes, r.rng⟩
    else if p.is_treated = true then
      let r := deterioration_pass rest prob rng
      ⟨p :: r.patients, r.ids, r.notes, r.rng⟩
    else
      let d := deteriorate_severity_if_needed p prob rng
      let r := deterioration_pass rest prob d.2.2
      if d.1 = true then
        ⟨d.2.1 :: r.patients, p.id :: r.ids,
          deterioration_note p.id :: r.notes, r.rng⟩
      else
        ⟨d.2.1 :: r.patients, r.ids, r.notes, r.rng⟩

/-- A patient currently occupying a bed: alive, treated, still present. -/
def isOccupying (p : Patient) : Bool :=
  p.is_alive && p.is_treated && !p.has_left

/-- The occupied-bed count recomputed at the end of every round. -/
def occupiedCount (ps : List Patient) : Nat :=
  ps.countP isOccupying

/-- Stage 1 of `apply_player_decisions`: the fresh summary (with the
decision map recorded verbatim) fed through the environment-shock step. -/
def round_stage1 (gs : GameState) (decisions : List (Nat × TriageDecision))
    (rng : Rng) : ShockResult :=
  apply_environment_shocks gs ⟨gs.current_round, decisions, [], [], [], []⟩
    (deterioration_probability gs.difficulty) rng

/-- Stage 2 of `apply_player_decisions`: the decision loop. -/
def round_stage2 (gs : GameState) (decisions : List (Nat × TriageDecision))
    (rng : Rng) : StepResult :=
  process_all decisions (round_stage1 gs decisions rng).gs
    (round_stage1 gs decisions rng).summary (round_stage1 gs decisions rng).rng

/-- Stage 3 of `apply_player_decisions`: the deterioration pass, at the
possibly shock-elevated probability. -/
def round_stage3 (gs : GameState) (decisions : List (Nat × TriageDecision))
    (rng : Rng) : DetResult :=
  deterioration_pass (round_stage2 gs decisions rng).gs.patients
    (round_stage1 gs decisions rng).prob (round_stage2 gs decisions rng).rng

/-- The `apply_player_decisions` entry point: record the decision map
verbatim, run environment shocks, the decision loop, the deterioration
pass, recompute beds from scratch, and apply the final metric clamp. -/
def apply_player_decisions (gs : GameState)
    (decisions : List (Nat × TriageDecision)) (rng : Rng) :
    RoundSummary × GameState × Rng :=
  let st := round_stage2 gs decisions rng
  let det := round_stage3 gs decisions rng
  let hosp1 := { st.gs.hospital with
    available_beds := max 0 (MAX_BEDS - (occupiedCount det.patients : ℤ)) }
  let hosp2 := clampMetrics hosp1
  let summaryF := { st.summary with
    patients_deteriorated := st.summary.patients_deteriorated ++ det.ids,
    notes := st.summary.notes ++ det.notes }
  (summaryF, { st.gs with patients := det.patients, hospital := hosp2 },
    det.rng)

/-- Models `random.Random.randint lo hi`: one draw in [0,1) mapped onto the
inclusive integer range. -/
def randint (lo hi : Nat) (rng : Rng) : Nat × Rng :=
  let x := rng.f rng.pos
  let k := Int.toNat ⌊x * ((hi : ℚ) - (lo : ℚ) + 1)⌋
  (lo + min (hi - lo) k, ⟨rng.f, rng.pos + 1⟩)

/-- The body of the generation loop in `generate_new_patients_for_round`. -/
def gen_patients_loop (sp : ℚ) : Nat → GameState → Rng →
    List Patient × GameState × Rng
  | 0, gs, rng => ([], gs, rng)
  | n + 1, gs, rng =>
    let t := sample_true_severity sp rng
    let v := noisy_visible_severity t.1 gs.difficulty t.2
    let pid := gs.next_patient_id
    let p : Patient :=
      ⟨pid, "Patient " ++ toString pid, v.1, t.1, gs.current_round,
        false, true, false⟩
    let gs1 :=
      { gs with next_patient_id := pid + 1, patients := gs.patients ++ [p] }
    let rest := gen_patients_loop sp n gs1 v.2
    (p :: rest.1, rest.2.1, rest.2.2)

/-- The `generate_new_patients_for_round` entry point. -/
def generate_new_patients_for_round (gs : GameState) (rng : Rng) :
    List Patient × GameState × Rng :=
  let mm := patients_per_round gs.difficulty
  let sp := severe_probability gs.difficulty
  let nr := randint mm.1 mm.2 rng
  gen_patients_loop sp nr.1 gs nr.2

/-- Game states reachable through the engine's own operations: the initial
state, patient generation, decision application, and the two state-model
helpers the caller uses between rounds. -/
inductive Reachable : GameState → Prop
  | init (d : DifficultyLevel) : Reachable (GameState.initial d)
  | generate (gs : GameState) (rng : Rng) (h : Reachable gs) :
      Reachable (generate_new_patients_for_round gs rng).2.1
  | decisions (gs : GameState) (ds : List (Nat × TriageDecision)) (rng : Rng)
      (h : Reachable gs) : Reachable (apply_player_decisions gs ds rng).2.1
  | nextRound (gs : GameState) (h : Reachable gs) :
      Reachable (increment_round gs)
  | record (gs : GameState) (s : RoundSummary) (h : Reachable gs) :
      Reachable (add_round_summary gs s)

/-- The per-patient data that the round-resolution engine never rewrites:
identity, display name, arrival round, and the visible severity. -/
def patientFrame (p : Patient) : Nat × String × Nat × SeverityLevel :=
  (p.id, p.name, p.arrival_round, p.severity_visible)

/-- The bed-accounting invariant maintained between engine calls: the bed
counter is nonnegative and, together with the occupied-bed count, never
exceeds the bed ceiling. -/
def bedsInv (gs : GameState) : Prop :=
  0 ≤ gs.hospital.available_beds ∧
  gs.hospital.available_beds + (occupiedCount gs.patients : ℤ) ≤ MAX_BEDS

/-- A constant-stream randomness source used in concrete examples. -/
def const_rng (q : ℚ) : Rng := ⟨fun _ => q, 0⟩

def stoch_no_beds_state : GameState :=
  ⟨DifficultyLevel.STOCHASTIC, 1, [], [], ⟨0, 4, 100, 10, 60⟩, 1⟩

def stoch_five_beds_state : GameState :=
  ⟨DifficultyLevel.STOCHASTIC, 1, [], [], ⟨5, 4, 100, 10, 60⟩, 1⟩

def empty_summary : RoundSummary := ⟨1, [], [], [], [], []⟩

def critical_patient : Patient :=
  ⟨1, "Patient 1", SeverityLevel.CRITICAL, SeverityLevel.CRITICAL, 1,
    false, true, false⟩

def no_staff_state : GameState :=
  ⟨DifficultyLevel.BASIC, 1, [critical_patient], [], ⟨5, 0, 100, 10, 60⟩, 2⟩

def full_capacity_state : GameState :=
  ⟨DifficultyLevel.BASIC, 1, [critical_patient], [], ⟨5, 4, 100, 10, 60⟩, 2⟩


theorem clampQ_nonneg (x : ℚ) : 0 ≤ clampQ x := le_max_left 0 _

theorem clampQ_le_hundred (x : ℚ) : clampQ x ≤ 100 :=
  max_le (by norm_num) (min_le_left _ _)

theorem clampMetrics_bounds (h : HospitalState) :
    (0 ≤ (clampMetrics h).survival_score ∧ (clampMetrics h).survival_score ≤ 100) ∧
    (0 ≤ (clampMetrics h).staff_stress ∧ (clampMetrics h).staff_stress ≤ 100) ∧
    (0 ≤ (clampMetrics h).reputation ∧ (clampMetrics h).reputation ≤ 100) := by
  refine ⟨⟨?_, ?_⟩, ⟨?_, ?_⟩, ⟨?_, ?_⟩⟩ <;>
    simp [clampMetrics] <;>
    first
      | exact clampQ_nonneg _
      | exact clampQ_le_hundred _

theorem apply_hospital_clamped (gs : GameState)
    (ds : List (Nat × TriageDecision)) (rng : Rng) :
    ∃ h0, (apply_player_decisions gs ds rng).2.1.hospital = clampMetrics h0 :=
  ⟨_, rfl⟩

/-- C1: after apply_player_decisions, all three metrics lie in [0,100]. -/
theorem c1_metrics_in_range (gs : GameState)
    (ds : List (Nat × TriageDecision)) (rng : Rng) :
    (0 ≤ (apply_player_decisions gs ds rng).2.1.hospital.survival_score ∧
      (apply_player_decisions gs ds rng).2.1.hospital.survival_score ≤ 100) ∧
    (0 ≤ (apply_player_decisions gs ds rng).2.1.hospital.staff_stress ∧
      (apply_player_decisions gs ds rng).2.1.hospital.staff_stress ≤ 100) ∧
    (0 ≤ (apply_player_decisions gs ds rng).2.1.hospital.reputation ∧
      (apply_player_decisions gs ds rng).2.1.hospital.reputation ≤ 100) := by
  obtain ⟨h0, hh⟩ := apply_hospital_clamped gs ds rng
  rw [hh]
  exact clampMetrics_bounds h0

/-- C3: the death-probability table. -/
theorem c3_death_probability_table (sev : SeverityLevel)
    (dec : TriageDecision) :
    (death_probability sev true dec =
      base_rate sev *
        (if sev = SeverityLevel.SEVERE ∨ sev = SeverityLevel.CRITICAL
          then (0.25 : ℚ) else 0.10)) ∧
    (death_probability sev false dec =
      base_rate sev *
        (if dec = TriageDecision.MONITOR then (1.2 : ℚ)
         else if dec = TriageDecision.DEFER then 2.0
         else if dec = TriageDecision.TRANSFER then 1.5
         else 1)) ∧
    death_probability SeverityLevel.CRITICAL true dec = 0.075 := by
  cases sev <;> cases dec <;> refine ⟨?_, ?_, ?_⟩ <;>
    norm_num [death_probability, base_rate]


theorem severity_rank_bounds (s : SeverityLevel) :
    0 ≤ severity_to_int s ∧ severity_to_int s ≤ 3 := by
  cases s <;> simp [severity_to_int]

/-- C6: deterioration never lowers the true severity rank, never exceeds
rank 3, is a no-op returning false for ineligible patients, and on
success raises the rank by exactly one. -/
theorem c6_deterioration_safe (p : Patient) (prob : ℚ) (rng : Rng) :
    severity_to_int p.severity_hidden_true ≤
      severity_to_int
        (deteriorate_severity_if_needed p prob rng).2.1.severity_hidden_true ∧
    severity_to_int
      (deteriorate_severity_if_needed p prob rng).2.1.severity_hidden_true ≤ 3 ∧
    (¬(p.is_alive = true ∧ p.is_treated = false ∧ p.has_left = false) →
      (deteriorate_severity_if_needed p prob rng).1 = false ∧
      (deteriorate_severity_if_needed p prob rng).2.1 = p) ∧
    ((deteriorate_severity_if_needed p prob rng).1 = true →
      severity_to_int
          (deteriorate_severity_if_needed p prob rng).2.1.severity_hidden_true =
        severity_to_int p.severity_hidden_true + 1) := by
  obtain ⟨pid, pname, pvis, ptru, parr, ptr, pal, plf⟩ := p
  by_cases hx : rng.f rng.pos < prob <;>
    cases pal <;> cases ptr <;> cases plf <;> cases ptru <;>
      simp [deteriorate_severity_if_needed, hx, severity_to_int,
        int_to_severity]


/-- C7: the visible-severity noise model.  The first draw decides the
offset band (0 below 0.8 for BASIC and 0.6 for STOCHASTIC; otherwise
±1, and ±2 in the STOCHASTIC [0.9,1) band); one extra draw picks the
sign exactly when the offset is nonzero; the result is the clamped
rank-plus-offset. -/
theorem c7_noisy_severity (tru : SeverityLevel) (diff : DifficultyLevel)
    (rng : Rng) :
    (diff = DifficultyLevel.BASIC → rng.f rng.pos < 0.8 →
      noisy_visible_severity tru diff rng =
        (int_to_severity (severity_to_int tru), ⟨rng.f, rng.pos + 1⟩)) ∧
    (diff = DifficultyLevel.BASIC → 0.8 ≤ rng.f rng.pos →
      noisy_visible_severity tru diff rng =
        (int_to_severity (severity_to_int tru +
            (if rng.f (rng.pos + 1) < 0.5 then (-1 : ℤ) else 1)),
          ⟨rng.f, rng.pos + 2⟩)) ∧
    (diff = DifficultyLevel.STOCHASTIC → rng.f rng.pos < 0.6 →
      noisy_visible_severity tru diff rng =
        (int_to_severity (severity_to_int tru), ⟨rng.f, rng.pos + 1⟩)) ∧
    (diff = DifficultyLevel.STOCHASTIC → 0.6 ≤ rng.f rng.pos →
        rng.f rng.pos < 0.9 →
      noisy_visible_severity tru diff rng =
        (int_to_severity (severity_to_int tru +
            (if rng.f (rng.pos + 1) < 0.5 then (-1 : ℤ) else 1)),
          ⟨rng.f, rng.pos + 2⟩)) ∧
    (diff = DifficultyLevel.STOCHASTIC → 0.9 ≤ rng.f rng.pos →
      noisy_visible_severity tru diff rng =
        (int_to_severity (severity_to_int tru +
            (if rng.f (rng.pos + 1) < 0.5 then (-2 : ℤ) else 2)),
          ⟨rng.f, rng.pos + 2⟩)) ∧
    (0 ≤ severity_to_int (noisy_visible_severity tru diff rng).1 ∧
      severity_to_int (noisy_visible_severity tru diff rng).1 ≤ 3) := by
  refine ⟨?_, ?_, ?_, ?_, ?_, severity_rank_bounds _⟩
  · rintro rfl h1
    simp [noisy_visible_severity, h1]
  · rintro rfl h1
    simp [noisy_visible_severity, not_lt.mpr h1]
  · rintro rfl h1
    simp [noisy_visible_severity, h1]
  · rintro rfl h1 h2
    simp [noisy_visible_severity, not_lt.mpr h1, h2]
  · rintro rfl h1
    have h06 : ¬(rng.f rng.pos < 0.6) :=
      not_lt.mpr (le_trans (by norm_num) h1)
    simp [noisy_visible_severity, not_lt.mpr h1, h06]


/-- C8 counterexample: with zero beds, a shock roll of 0.3 (inside the
bed-outage band) appends no notes at all. -/
theorem c8_counterexample_no_notes_at_zero_beds :
    (apply_environment_shocks stoch_no_beds_state empty_summary 0.35
        (const_rng 0.3)).summary.notes = [] ∧
    (0.20 : ℚ) ≤ 0.3 ∧ (0.3 : ℚ) < 0.40 ∧
    stoch_no_beds_state.difficulty = DifficultyLevel.STOCHASTIC ∧
    stoch_no_beds_state.hospital.available_beds = 0 := by
  refine ⟨?_, by norm_num, by norm_num, rfl, rfl⟩
  norm_num [apply_environment_shocks, stoch_no_beds_state, empty_summary,
    const_rng]

/-- C8 amended: in the bed-outage band the reduction and both notes happen
whenever beds are positive; with zero beds nothing changes and no note is
appended; either way the deterioration probability is untouched and one
draw is consumed. -/
theorem c8_amended_bed_outage (gs : GameState) (s : RoundSummary) (prob : ℚ)
    (rng : Rng) (hdiff : gs.difficulty = DifficultyLevel.STOCHASTIC)
    (h1 : 0.20 ≤ rng.f rng.pos) (h2 : rng.f rng.pos < 0.40) :
    (0 < gs.hospital.available_beds →
      (apply_environment_shocks gs s prob rng).gs.hospital.available_beds =
        max 0 (gs.hospital.available_beds -
          max 1 (gs.hospital.available_beds / 2)) ∧
      (apply_environment_shocks gs s prob rng).summary.notes = s.notes ++
        [bed_outage_scenario,
          bed_outage_event gs.hospital.available_beds
            (max 0 (gs.hospital.available_beds -
              max 1 (gs.hospital.available_beds / 2)))]) ∧
    (gs.hospital.available_beds ≤ 0 →
      (apply_environment_shocks gs s prob rng).gs = gs ∧
      (apply_environment_shocks gs s prob rng).summary = s) ∧
    (apply_environment_shocks gs s prob rng).prob = prob ∧
    (apply_environment_shocks gs s prob rng).rng.pos = rng.pos + 1 := by
  have h020 : ¬(rng.f rng.pos < 0.20) := not_lt.mpr h1
  by_cases hb : 0 < gs.hospital.available_beds
  · simp [apply_environment_shocks, hdiff, h020, h2, hb, not_lt.mpr hb.le]
  · simp [apply_environment_shocks, hdiff, h020, h2, hb, not_lt.mpr (not_lt.mp hb)]


/-- C9: the narrative layer is deterministic and draw-free: the
decision-quality clause is a pure function of decision and true severity
landing in one of the five fixed categories, and one whole pass of the
per-patient step (which builds and appends the explanation via
explain_text) leaves the draw stream untouched and advances its position
only for the single outcome sample — the narrative itself consumes
nothing. -/
theorem c9_narrative_deterministic :
    (∀ (dec : TriageDecision) (sev : SeverityLevel),
      decision_quality dec sev = "aligned with the high true risk" ∨
      decision_quality dec sev =
        "conservative, using resources on a lower-risk patient" ∨
      decision_quality dec sev = "risky given the underlying severity" ∨
      decision_quality dec sev = "high-risk, depending on external capacity" ∨
      decision_quality dec sev = "reasonable for the estimated risk") ∧
    (∀ (gs : GameState) (s : RoundSummary) (pid : Nat)
        (dec : TriageDecision) (rng : Rng),
      (process_decision gs s pid dec rng).rng.f = rng.f ∧
      ((process_decision gs s pid dec rng).rng.pos = rng.pos ∨
        (process_decision gs s pid dec rng).rng.pos = rng.pos + 1)) := by
  constructor
  · intro dec sev
    cases dec <;> cases sev <;> decide
  · intro gs s pid dec rng
    cases hfind : get_patient_by_id gs pid with
    | none => simp [process_decision, hfind]
    | some patient =>
      by_cases helig : patient.is_alive = false ∨ patient.has_left = true
      · simp [process_decision, hfind, helig]
      · by_cases hdec : dec = TriageDecision.TRANSFER
        · simp [process_decision, hfind, helig, hdec]
        · simp [process_decision, hfind, helig, hdec]


theorem process_decision_decisions_eq (gs : GameState) (s : RoundSummary)
    (pid : Nat) (d : TriageDecision) (rng : Rng) :
    (process_decision gs s pid d rng).summary.decisions = s.decisions := by
  cases hfind : get_patient_by_id gs pid with
  | none => simp [process_decision, hfind]
  | some patient =>
    by_cases helig : patient.is_alive = false ∨ patient.has_left = true
    · simp [process_decision, hfind, helig]
    · by_cases hdec : d = TriageDecision.TRANSFER
      · simp [process_decision, hfind, helig, hdec,
          apply_ite (fun (x : RoundSummary) => x.decisions)]
      · simp [process_decision, hfind, helig, hdec,
          apply_ite (fun (x : RoundSummary) => x.decisions)]

theorem process_all_decisions_eq (ds : List (Nat × TriageDecision)) :
    ∀ (gs : GameState) (s : RoundSummary) (rng : Rng),
    (process_all ds gs s rng).summary.decisions = s.decisions := by
  induction ds with
  | nil => intro gs s rng; rfl
  | cons hd tl ih =>
    intro gs s rng
    rw [process_all, ih]
    exact process_decision_decisions_eq gs s hd.1 hd.2 rng

theorem shocks_decisions_eq (gs : GameState) (s : RoundSummary) (p : ℚ)
    (rng : Rng) :
    (apply_environment_shocks gs s p rng).summary.decisions = s.decisions := by
  unfold apply_environment_shocks
  split
  · rfl
  · simp [apply_ite (fun (x : ShockResult) => x.summary.decisions)]

theorem apply_records_decisions_verbatim (gs : GameState)
    (ds : List (Nat × TriageDecision)) (rng : Rng) :
    (apply_player_decisions gs ds rng).1.decisions = ds := by
  show (round_stage2 gs ds rng).summary.decisions = ds
  rw [round_stage2, process_all_decisions_eq, round_stage1,
    shocks_decisions_eq]


theorem find?_updateFirst (ps : List Patient) (pid : Nat)
    (f : Patient → Patient) (p : Patient)
    (hfind : ps.find? (fun q => q.id == pid) = some p)
    (hid : (f p).id = p.id) :
    (updateFirst ps pid f).find? (fun q => q.id == pid) = some (f p) := by
  induction ps with
  | nil => simp at hfind
  | cons a rest ih =>
    rw [List.find?_cons] at hfind
    by_cases ha : (a.id == pid) = true
    · rw [ha] at hfind
      obtain rfl : a = p := by simpa using hfind
      have hfid : ((f a).id == pid) = true := by
        rw [hid]
        exact ha
      rw [updateFirst, if_pos ha, List.find?_cons, hfid]
    · have ha2 : (a.id == pid) = false := by simpa using ha
      rw [ha2] at hfind
      rw [updateFirst, if_neg ha, List.find?_cons, ha2]
      exact ih hfind

/-- C4: a TreatNow decision with no staff or no beds is recorded verbatim,
never marks the patient treated, appends the coercion note, and is handled
as Defer downstream (death sampling, metrics, narrative). -/
theorem c4_coerced_treat_now (gs : GameState) (s : RoundSummary) (pid : Nat)
    (rng : Rng) (patient : Patient)
    (hfind : get_patient_by_id gs pid = some patient)
    (halive : patient.is_alive = true) (hleft : patient.has_left = false)
    (hres : gs.hospital.staff_capacity_this_round ≤ 0 ∨
      gs.hospital.available_beds ≤ 0) :
    (process_decision gs s pid TriageDecision.TREAT_NOW rng).summary.notes =
      s.notes ++ [coercion_note pid,
        explain_text pid patient.severity_visible patient.severity_hidden_true
          TriageDecision.DEFER false
          (decide (rng.f rng.pos < death_probability
            patient.severity_hidden_true false TriageDecision.DEFER))] ∧
    (process_decision gs s pid TriageDecision.TREAT_NOW rng).summary.patients_treated =
      s.patients_treated ∧
    (process_decision gs s pid TriageDecision.TREAT_NOW rng).gs.patients =
      updateFirst gs.patients pid (fun _ =>
        if decide (rng.f rng.pos < death_probability
            patient.severity_hidden_true false TriageDecision.DEFER) = true
        then { patient with is_alive := false } else patient) ∧
    get_patient_by_id
        (process_decision gs s pid TriageDecision.TREAT_NOW rng).gs pid =
      some (if decide (rng.f rng.pos < death_probability
            patient.severity_hidden_true false TriageDecision.DEFER) = true
        then { patient with is_alive := false } else patient) ∧
    (process_decision gs s pid TriageDecision.TREAT_NOW rng).gs.hospital =
      update_metrics_for_patient_outcome gs.hospital
        (decide (rng.f rng.pos < death_probability
          patient.severity_hidden_true false TriageDecision.DEFER))
        TriageDecision.DEFER ∧
    death_probability patient.severity_hidden_true false
        TriageDecision.DEFER =
      base_rate patient.severity_hidden_true * 2 ∧
    (∀ (ds : List (Nat × TriageDecision)) (rng2 : Rng),
      (apply_player_decisions gs ds rng2).1.decisions = ds) := by
  have helig : ¬(patient.is_alive = false ∨ patient.has_left = true) := by
    simp [halive, hleft]
  have hbool : (decide (0 < gs.hospital.staff_capacity_this_round) &&
      decide (0 < gs.hospital.available_beds)) = false := by
    rcases hres with h | h <;> simp [not_lt.mpr h]
  have hprop : ¬(0 < gs.hospital.staff_capacity_this_round ∧
      0 < gs.hospital.available_beds) := by
    rcases hres with h | h <;> simp [not_lt.mpr h]
  have harrow : (0 < gs.hospital.staff_capacity_this_round →
      gs.hospital.available_beds ≤ 0) := by
    rcases hres with h | h
    · intro hs
      exact absurd hs (not_lt.mpr h)
    · intro hs
      exact h
  have hpat : (process_decision gs s pid TriageDecision.TREAT_NOW rng).gs.patients =
      updateFirst gs.patients pid (fun _ =>
        if decide (rng.f rng.pos < death_probability
            patient.severity_hidden_true false TriageDecision.DEFER) = true
        then { patient with is_alive := false } else patient) := by
    simp [process_decision, hfind, helig, hbool, hprop, harrow]
  refine ⟨?_, ?_, hpat, ?_, ?_, ?_,
    fun ds rng2 => apply_records_decisions_verbatim gs ds rng2⟩
  · simp [process_decision, hfind, helig, hbool, hprop, harrow,
      apply_ite (fun (x : RoundSummary) => x.notes)]
  · simp [process_decision, hfind, helig, hbool, hprop, harrow,
      apply_ite (fun (x : RoundSummary) => x.patients_treated)]
  · show (process_decision gs s pid TriageDecision.TREAT_NOW rng).gs.patients.find?
        (fun q => q.id == pid) = _
    rw [hpat]
    refine find?_updateFirst _ _ _ _ hfind ?_
    split <;> rfl
  · simp [process_decision, hfind, helig, hbool, hprop, harrow]
  · cases patient.severity_hidden_true <;>
      simp [death_probability, base_rate] <;> norm_num


/-- C5: a Transfer immediately marks the patient as departed, samples death
untreated with the 1.5 transfer multiplier, updates metrics, appends
exactly one narrative note, consumes exactly one draw (skipping the shared
outcome step), and the reputation delta is +0.5 exactly under scarcity at
processing time, −1.0 otherwise. -/
theorem c5_transfer_early_resolution (gs : GameState) (s : RoundSummary)
    (pid : Nat) (rng : Rng) (patient : Patient)
    (hfind : get_patient_by_id gs pid = some patient)
    (halive : patient.is_alive = true) (hleft : patient.has_left = false) :
    (process_decision gs s pid TriageDecision.TRANSFER rng).gs.patients =
      updateFirst gs.patients pid (fun _ =>
        { patient with
            has_left := true
            is_alive := !(decide (rng.f rng.pos < death_probability
              patient.severity_hidden_true false TriageDecision.TRANSFER)) }) ∧
    get_patient_by_id
        (process_decision gs s pid TriageDecision.TRANSFER rng).gs pid =
      some { patient with
        has_left := true
        is_alive := !(decide (rng.f rng.pos < death_probability
          patient.severity_hidden_true false TriageDecision.TRANSFER)) } ∧
    (process_decision gs s pid TriageDecision.TRANSFER rng).summary.notes =
      s.notes ++ [explain_text pid patient.severity_visible
        patient.severity_hidden_true TriageDecision.TRANSFER false
        (decide (rng.f rng.pos < death_probability
          patient.severity_hidden_true false TriageDecision.TRANSFER))] ∧
    (process_decision gs s pid TriageDecision.TRANSFER rng).gs.hospital =
      update_metrics_for_patient_outcome gs.hospital
        (decide (rng.f rng.pos < death_probability
          patient.severity_hidden_true false TriageDecision.TRANSFER))
        TriageDecision.TRANSFER ∧
    death_probability patient.severity_hidden_true false
        TriageDecision.TRANSFER =
      base_rate patient.severity_hidden_true * 1.5 ∧
    (process_decision gs s pid TriageDecision.TRANSFER rng).rng =
      ⟨rng.f, rng.pos + 1⟩ ∧
    (update_metrics_for_patient_outcome gs.hospital
        (decide (rng.f rng.pos < death_probability
          patient.severity_hidden_true false TriageDecision.TRANSFER))
        TriageDecision.TRANSFER).reputation =
      clampQ ((if decide (rng.f rng.pos < death_probability
            patient.severity_hidden_true false TriageDecision.TRANSFER) = true
          then gs.hospital.reputation - 2 else gs.hospital.reputation + 0.5) +
        (if gs.hospital.available_beds ≤ 0 ∨
            gs.hospital.staff_capacity_this_round ≤ 0
          then 0.5 else -1)) := by
  have helig : ¬(patient.is_alive = false ∨ patient.has_left = true) := by
    simp [halive, hleft]
  have hpat : (process_decision gs s pid TriageDecision.TRANSFER rng).gs.patients =
      updateFirst gs.patients pid (fun _ =>
        { patient with
            has_left := true
            is_alive := !(decide (rng.f rng.pos < death_probability
              patient.severity_hidden_true false TriageDecision.TRANSFER)) }) := by
    simp [process_decision, hfind, helig]
  refine ⟨hpat, ?_, ?_, ?_, ?_, ?_, ?_⟩
  · show (process_decision gs s pid TriageDecision.TRANSFER rng).gs.patients.find?
        (fun q => q.id == pid) = _
    rw [hpat]
    exact find?_updateFirst _ _ _ _ hfind rfl
  · simp [process_decision, hfind, helig,
      apply_ite (fun (x : RoundSummary) => x.notes)]
  · simp [process_decision, hfind, helig]
  · cases patient.severity_hidden_true <;>
      simp [death_probability, base_rate]
  · simp [process_decision, hfind, helig]
  · by_cases hsc : gs.hospital.available_beds ≤ 0 ∨
        gs.hospital.staff_capacity_this_round ≤ 0 <;>
      cases hD : decide (rng.f rng.pos < death_probability
        patient.severity_hidden_true false TriageDecision.TRANSFER) <;>
      simp [update_metrics_for_patient_outcome, clampMetrics, hsc, hD] <;>
      ring_nf

theorem updateFirst_map {α : Type} (g : Patient → α) (ps : List Patient)
    (pid : Nat) (f : Patient → Patient)
    (hg : ∀ p, ps.find? (fun q => q.id == pid) = some p → g (f p) = g p) :
    (updateFirst ps pid f).map g = ps.map g := by
  induction ps with
  | nil => rfl
  | cons a rest ih =>
    rw [updateFirst]
    by_cases ha : (a.id == pid) = true
    · rw [if_pos ha]
      have hga : g (f a) = g a := by
        refine hg a ?_
        simp [List.find?_cons, ha]
      simp [hga]
    · have ha2 : (a.id == pid) = false := by simpa using ha
      rw [if_neg ha]
      simp only [List.map_cons]
      rw [ih]
      intro p hp
      refine hg p ?_
      simp [List.find?_cons, ha2]
      exact hp

theorem frame_of_flag_edit (patient : Patient) (c1 c2 : Prop) [Decidable c1]
    [Decidable c2] (t l : Bool) :
    patientFrame (if c1 then { (if c2 then { patient with is_treated := t }
        else patient) with is_alive := false }
      else (if c2 then { patient with is_treated := t } else patient)) =
      patientFrame patient ∧
    patientFrame { patient with has_left := true, is_alive := l } =
      patientFrame patient := by
  constructor
  · by_cases h1 : c1 <;> by_cases h2 : c2 <;> simp [h1, h2, patientFrame]
  · rfl

theorem process_decision_gs_fields (gs : GameState) (s : RoundSummary)
    (pid : Nat) (d : TriageDecision) (rng : Rng) :
    (process_decision gs s pid d rng).gs.current_round = gs.current_round ∧
    (process_decision gs s pid d rng).gs.difficulty = gs.difficulty ∧
    (process_decision gs s pid d rng).gs.next_patient_id =
      gs.next_patient_id ∧
    (process_decision gs s pid d rng).gs.history = gs.history ∧
    (process_decision gs s pid d rng).gs.patients.map patientFrame =
      gs.patients.map patientFrame := by
  cases hfind : get_patient_by_id gs pid with
  | none => simp [process_decision, hfind]
  | some patient =>
    by_cases helig : patient.is_alive = false ∨ patient.has_left = true
    · simp [process_decision, hfind, helig]
    · by_cases hdec : d = TriageDecision.TRANSFER <;>
        refine ⟨?_, ?_, ?_, ?_, ?_⟩ <;>
        simp [process_decision, hfind, helig, hdec] <;>
        refine updateFirst_map _ _ _ _ ?_ <;>
        intro p hp <;>
        simp [patientFrame, apply_ite Patient.id, apply_ite Patient.name,
          apply_ite Patient.arrival_round,
          apply_ite Patient.severity_visible] <;>
        · have hf2 : gs.patients.find? (fun q => q.id == pid) =
              some patient := hfind
          rw [hf2] at hp
          obtain rfl : p = patient := (Option.some.inj hp).symm
          exact ⟨rfl, rfl, rfl, rfl⟩

theorem process_all_gs_fields (ds : List (Nat × TriageDecision)) :
    ∀ (gs : GameState) (s : RoundSummary) (rng : Rng),
    (process_all ds gs s rng).gs.current_round = gs.current_round ∧
    (process_all ds gs s rng).gs.difficulty = gs.difficulty ∧
    (process_all ds gs s rng).gs.next_patient_id = gs.next_patient_id ∧
    (process_all ds gs s rng).gs.history = gs.history ∧
    (process_all ds gs s rng).gs.patients.map patientFrame =
      gs.patients.map patientFrame := by
  induction ds with
  | nil =>
    intro gs s rng
    exact ⟨rfl, rfl, rfl, rfl, rfl⟩
  | cons hd tl ih =>
    intro gs s rng
    rw [process_all]
    obtain ⟨i1, i2, i3, i4, i5⟩ :=
      ih (process_decision gs s hd.1 hd.2 rng).gs
        (process_decision gs s hd.1 hd.2 rng).summary
        (process_decision gs s hd.1 hd.2 rng).rng
    obtain ⟨j1, j2, j3, j4, j5⟩ :=
      process_decision_gs_fields gs s hd.1 hd.2 rng
    exact ⟨i1.trans j1, i2.trans j2, i3.trans j3, i4.trans j4, i5.trans j5⟩

theorem shocks_gs_fields (gs : GameState) (s : RoundSummary) (p : ℚ)
    (rng : Rng) :
    (apply_environment_shocks gs s p rng).gs.current_round =
      gs.current_round ∧
    (apply_environment_shocks gs s p rng).gs.difficulty = gs.difficulty ∧
    (apply_environment_shocks gs s p rng).gs.next_patient_id =
      gs.next_patient_id ∧
    (apply_environment_shocks gs s p rng).gs.history = gs.history ∧
    (apply_environment_shocks gs s p rng).gs.patients = gs.patients := by
  unfold apply_environment_shocks
  split
  · exact ⟨rfl, rfl, rfl, rfl, rfl⟩
  · refine ⟨?_, ?_, ?_, ?_, ?_⟩ <;>
      simp [apply_ite (fun (x : ShockResult) => x.gs.current_round),
        apply_ite (fun (x : ShockResult) => x.gs.difficulty),
        apply_ite (fun (x : ShockResult) => x.gs.next_patient_id),
        apply_ite (fun (x : ShockResult) => x.gs.history),
        apply_ite (fun (x : ShockResult) => x.gs.patients)]

theorem deteriorate_frame (p : Patient) (prob : ℚ) (rng : Rng) :
    patientFrame (deteriorate_severity_if_needed p prob rng).2.1 =
      patientFrame p := by
  unfold deteriorate_severity_if_needed
  by_cases h1 : p.is_alive = false ∨ p.is_treated = true ∨ p.has_left = true
  · rw [if_pos h1]
  · rw [if_neg h1]
    by_cases h2 : rng.f rng.pos < prob
    · by_cases h3 : severity_to_int p.severity_hidden_true <
          severity_to_int SeverityLevel.CRITICAL
      · simp [h2, h3, patientFrame]
      · simp [h2, h3]
    · simp [h2]

theorem det_pass_frame (ps : List Patient) (prob : ℚ) (rng : Rng) :
    (deterioration_pass ps prob rng).patients.map patientFrame =
      ps.map patientFrame := by
  induction ps generalizing rng with
  | nil => rfl
  | cons a rest ih =>
    rw [deterioration_pass]
    split
    · simp [ih]
    · split
      · simp [ih]
      · by_cases hw : (deteriorate_severity_if_needed a prob rng).1 = true <;>
          simp [hw, ih, deteriorate_frame]

/-- C10: apply_player_decisions is a frame for the round counter, the
difficulty, the id counter and the history, and it neither adds nor
removes roster entries — per patient it can only rewrite the lifecycle
flags and the hidden severity. -/
theorem c10_frame_conditions (gs : GameState)
    (ds : List (Nat × TriageDecision)) (rng : Rng) :
    (apply_player_decisions gs ds rng).2.1.current_round =
      gs.current_round ∧
    (apply_player_decisions gs ds rng).2.1.difficulty = gs.difficulty ∧
    (apply_player_decisions gs ds rng).2.1.next_patient_id =
      gs.next_patient_id ∧
    (apply_player_decisions gs ds rng).2.1.history = gs.history ∧
    (apply_player_decisions gs ds rng).2.1.patients.map patientFrame =
      gs.patients.map patientFrame ∧
    (apply_player_decisions gs ds rng).2.1.patients.length =
      gs.patients.length := by
  obtain ⟨s1, s2, s3, s4, s5⟩ :=
    shocks_gs_fields gs ⟨gs.current_round, ds, [], [], [], []⟩
      (deterioration_probability gs.difficulty) rng
  have hp := process_all_gs_fields ds (round_stage1 gs ds rng).gs
    (round_stage1 gs ds rng).summary (round_stage1 gs ds rng).rng
  simp only [round_stage1] at hp
  obtain ⟨p1, p2, p3, p4, p5⟩ := hp
  have hdet := det_pass_frame (round_stage2 gs ds rng).gs.patients
    (round_stage1 gs ds rng).prob (round_stage2 gs ds rng).rng
  simp only [round_stage2, round_stage1] at hdet
  have hframe : (apply_player_decisions gs ds rng).2.1.patients.map
      patientFrame = gs.patients.map patientFrame := by
    show ((round_stage3 gs ds rng).patients.map patientFrame) =
      gs.patients.map patientFrame
    simp only [round_stage3, round_stage2, round_stage1]
    rw [hdet]
    exact p5.trans (congrArg (List.map patientFrame) s5)
  refine ⟨?_, ?_, ?_, ?_, hframe, ?_⟩
  · show (round_stage2 gs ds rng).gs.current_round = gs.current_round
    simp only [round_stage2, round_stage1]
    exact p1.trans s1
  · show (round_stage2 gs ds rng).gs.difficulty = gs.difficulty
    simp only [round_stage2, round_stage1]
    exact p2.trans s2
  · show (round_stage2 gs ds rng).gs.next_patient_id = gs.next_patient_id
    simp only [round_stage2, round_stage1]
    exact p3.trans s3
  · show (round_stage2 gs ds rng).gs.history = gs.history
    simp only [round_stage2, round_stage1]
    exact p4.trans s4
  · have := congrArg List.length hframe
    simpa using this

theorem countP_updateFirst_le (q : Patient → Bool) (pid : Nat)
    (f : Patient → Patient) (ps : List Patient) :
    (updateFirst ps pid f).countP q ≤ ps.countP q + 1 := by
  induction ps with
  | nil => simp [updateFirst]
  | cons a rest ih =>
    rw [updateFirst]
    by_cases ha : (a.id == pid) = true
    · rw [if_pos ha, List.countP_cons, List.countP_cons]
      split_ifs <;> omega
    · rw [if_neg ha, List.countP_cons, List.countP_cons]
      split_ifs <;> omega

theorem countP_updateFirst_le_of (q : Patient → Bool) (pid : Nat)
    (f : Patient → Patient) :
    ∀ ps : List Patient,
    (∀ p, ps.find? (fun q2 => q2.id == pid) = some p →
      q (f p) = true → q p = true) →
    (updateFirst ps pid f).countP q ≤ ps.countP q := by
  intro ps
  induction ps with
  | nil =>
    intro _
    simp [updateFirst]
  | cons a rest ih =>
    intro hg
    rw [updateFirst]
    by_cases ha : (a.id == pid) = true
    · rw [if_pos ha, List.countP_cons, List.countP_cons]
      have hqa := hg a (by simp [List.find?_cons, ha])
      by_cases hfa : q (f a) = true
      · rw [if_pos hfa, if_pos (hqa hfa)]
      · rw [if_neg hfa]
        split_ifs <;> omega
    · have ha2 : (a.id == pid) = false := by simpa using ha
      rw [if_neg ha, List.countP_cons, List.countP_cons]
      have ihh := ih (fun p hp => hg p (by
        simpa [List.find?_cons, ha2] using hp))
      split_ifs <;> omega

theorem update_metrics_capacity (h : HospitalState) (died : Bool)
    (dec : TriageDecision) :
    (update_metrics_for_patient_outcome h died dec).available_beds =
      h.available_beds ∧
    (update_metrics_for_patient_outcome h died dec).staff_capacity_this_round =
      h.staff_capacity_this_round := by
  refine ⟨?_, ?_⟩ <;> cases died <;> cases dec <;>
    simp [update_metrics_for_patient_outcome, clampMetrics,
      apply_ite HospitalState.available_beds,
      apply_ite HospitalState.staff_capacity_this_round]

theorem bedsInv_of_parts (gs gs' : GameState)
    (hb : gs'.hospital.available_beds = gs.hospital.available_beds)
    (ho : occupiedCount gs'.patients ≤ occupiedCount gs.patients)
    (h : bedsInv gs) : bedsInv gs' := by
  obtain ⟨h0, h5⟩ := h
  constructor
  · rw [hb]
    exact h0
  · rw [hb]
    omega

theorem bedsInv_of_treat (gs gs' : GameState)
    (hb : gs'.hospital.available_beds = gs.hospital.available_beds - 1)
    (hpos : 0 < gs.hospital.available_beds)
    (ho : occupiedCount gs'.patients ≤ occupiedCount gs.patients + 1)
    (h : bedsInv gs) : bedsInv gs' := by
  obtain ⟨h0, h5⟩ := h
  constructor
  · rw [hb]
    omega
  · rw [hb]
    omega

theorem occ_updateFirst_drop (ps : List Patient) (pid : Nat)
    (f : Patient → Patient)
    (hg : ∀ p, ps.find? (fun q2 => q2.id == pid) = some p →
      isOccupying (f p) = true → isOccupying p = true) :
    occupiedCount (updateFirst ps pid f) ≤ occupiedCount ps :=
  countP_updateFirst_le_of isOccupying pid f ps hg

theorem process_decision_bedsInv (gs : GameState) (s : RoundSummary)
    (pid : Nat) (d : TriageDecision) (rng : Rng) (h : bedsInv gs) :
    bedsInv (process_decision gs s pid d rng).gs := by
  cases hfind : get_patient_by_id gs pid with
  | none =>
    have e : (process_decision gs s pid d rng).gs = gs := by
      simp [process_decision, hfind]
    rw [e]
    exact h
  | some patient =>
    by_cases helig : patient.is_alive = false ∨ patient.has_left = true
    · have e : (process_decision gs s pid d rng).gs = gs := by
        simp [process_decision, hfind, helig]
      rw [e]
      exact h
    · cases d with
      | TRANSFER =>
        refine bedsInv_of_parts gs _ ?_ ?_ h
        · have e : (process_decision gs s pid
                TriageDecision.TRANSFER rng).gs.hospital =
              update_metrics_for_patient_outcome gs.hospital
                (decide (rng.f rng.pos < death_probability
                  patient.severity_hidden_true false TriageDecision.TRANSFER))
                TriageDecision.TRANSFER := by
            simp [process_decision, hfind, helig]
          rw [e]
          exact (update_metrics_capacity _ _ _).1
        · have e : (process_decision gs s pid
                TriageDecision.TRANSFER rng).gs.patients =
              updateFirst gs.patients pid (fun _ =>
                { patient with
                    has_left := true
                    is_alive := !(decide (rng.f rng.pos < death_probability
                      patient.severity_hidden_true false
                      TriageDecision.TRANSFER)) }) := by
            simp [process_decision, hfind, helig]
          rw [e]
          refine occ_updateFirst_drop _ _ _ ?_
          intro p hp hq
          simp [isOccupying] at hq
      | MONITOR =>
        refine bedsInv_of_parts gs _ ?_ ?_ h
        · have e : (process_decision gs s pid
                TriageDecision.MONITOR rng).gs.hospital =
              update_metrics_for_patient_outcome gs.hospital
                (decide (rng.f rng.pos < death_probability
                  patient.severity_hidden_true false TriageDecision.MONITOR))
                TriageDecision.MONITOR := by
            simp [process_decision, hfind, helig]
          rw [e]
          exact (update_metrics_capacity _ _ _).1
        · have e : (process_decision gs s pid
                TriageDecision.MONITOR rng).gs.patients =
              updateFirst gs.patients pid (fun _ =>
                if decide (rng.f rng.pos < death_probability
                    patient.severity_hidden_true false
                    TriageDecision.MONITOR) = true
                then { patient with is_alive := false } else patient) := by
            simp [process_decision, hfind, helig]
          rw [e]
          refine occ_updateFirst_drop _ _ _ ?_
          intro p hp hq
          have hpp : p = patient := by
            rw [show gs.patients.find? (fun q => q.id == pid) = some patient
              from hfind] at hp
            exact (Option.some.inj hp).symm
          subst hpp
          by_cases hd : decide (rng.f rng.pos < death_probability
              p.severity_hidden_true false TriageDecision.MONITOR) = true
          · rw [if_pos hd] at hq
            simp [isOccupying] at hq
          · rwa [if_neg hd] at hq
      | DEFER =>
        refine bedsInv_of_parts gs _ ?_ ?_ h
        · have e : (process_decision gs s pid
                TriageDecision.DEFER rng).gs.hospital =
              update_metrics_for_patient_outcome gs.hospital
                (decide (rng.f rng.pos < death_probability
                  patient.severity_hidden_true false TriageDecision.DEFER))
                TriageDecision.DEFER := by
            simp [process_decision, hfind, helig]
          rw [e]
          exact (update_metrics_capacity _ _ _).1
        · have e : (process_decision gs s pid
                TriageDecision.DEFER rng).gs.patients =
              updateFirst gs.patients pid (fun _ =>
                if decide (rng.f rng.pos < death_probability
                    patient.severity_hidden_true false
                    TriageDecision.DEFER) = true
                then { patient with is_alive := false } else patient) := by
            simp [process_decision, hfind, helig]
          rw [e]
          refine occ_updateFirst_drop _ _ _ ?_
          intro p hp hq
          have hpp : p = patient := by
            rw [show gs.patients.find? (fun q => q.id == pid) = some patient
              from hfind] at hp
            exact (Option.some.inj hp).symm
          subst hpp
          by_cases hd : decide (rng.f rng.pos < death_probability
              p.severity_hidden_true false TriageDecision.DEFER) = true
          · rw [if_pos hd] at hq
            simp [isOccupying] at hq
          · rwa [if_neg hd] at hq
      | TREAT_NOW =>
        by_cases hcap : 0 < gs.hospital.staff_capacity_this_round ∧
            0 < gs.hospital.available_beds
        · obtain ⟨hst, hbd⟩ := hcap
          refine bedsInv_of_treat gs _ ?_ hbd ?_ h
          · have e : (process_decision gs s pid
                  TriageDecision.TREAT_NOW rng).gs.hospital =
                update_metrics_for_patient_outcome
                  { gs.hospital with
                      staff_capacity_this_round :=
                        gs.hospital.staff_capacity_this_round - 1
                      available_beds := gs.hospital.available_beds - 1 }
                  (decide (rng.f rng.pos < death_probability
                    patient.severity_hidden_true true
                    TriageDecision.TREAT_NOW))
                  TriageDecision.TREAT_NOW := by
              simp [process_decision, hfind, helig, hst, hbd]
            rw [e, (update_metrics_capacity _ _ _).1]
          · have e : (process_decision gs s pid
                  TriageDecision.TREAT_NOW rng).gs.patients =
                updateFirst gs.patients pid (fun _ =>
                  if decide (rng.f rng.pos < death_probability
                      patient.severity_hidden_true true
                      TriageDecision.TREAT_NOW) = true
                  then { patient with is_treated := true, is_alive := false }
                  else { patient with is_treated := true }) := by
              simp [process_decision, hfind, helig, hst, hbd]
            rw [e]
            exact countP_updateFirst_le isOccupying pid _ gs.patients
        · have hbool : (decide (0 < gs.hospital.staff_capacity_this_round) &&
              decide (0 < gs.hospital.available_beds)) = false := by
            rcases not_and_or.mp hcap with hc | hc <;> simp [hc]
          have harrow : (0 < gs.hospital.staff_capacity_this_round →
              gs.hospital.available_beds ≤ 0) := by
            intro hs
            rcases not_and_or.mp hcap with hc | hc
            · exact absurd hs hc
            · exact not_lt.mp hc
          refine bedsInv_of_parts gs _ ?_ ?_ h
          · have e : (process_decision gs s pid
                  TriageDecision.TREAT_NOW rng).gs.hospital =
                update_metrics_for_patient_outcome gs.hospital
                  (decide (rng.f rng.pos < death_probability
                    patient.severity_hidden_true false TriageDecision.DEFER))
                  TriageDecision.DEFER := by
              simp [process_decision, hfind, helig, hbool, hcap, harrow]
            rw [e]
            exact (update_metrics_capacity _ _ _).1
          · have e : (process_decision gs s pid
                  TriageDecision.TREAT_NOW rng).gs.patients =
                updateFirst gs.patients pid (fun _ =>
                  if decide (rng.f rng.pos < death_probability
                      patient.severity_hidden_true false
                      TriageDecision.DEFER) = true
                  then { patient with is_alive := false } else patient) := by
              simp [process_decision, hfind, helig, hbool, hcap, harrow]
            rw [e]
            refine occ_updateFirst_drop _ _ _ ?_
            intro p hp hq
            have hpp : p = patient := by
              rw [show gs.patients.find? (fun q => q.id == pid) = some patient
                from hfind] at hp
              exact (Option.some.inj hp).symm
            subst hpp
            by_cases hd : decide (rng.f rng.pos < death_probability
                p.severity_hidden_true false TriageDecision.DEFER) = true
            · rw [if_pos hd] at hq
              simp [isOccupying] at hq
            · rwa [if_neg hd] at hq

theorem process_all_bedsInv (ds : List (Nat × TriageDecision)) :
    ∀ (gs : GameState) (s : RoundSummary) (rng : Rng), bedsInv gs →
    bedsInv (process_all ds gs s rng).gs := by
  induction ds with
  | nil =>
    intro gs s rng h
    exact h
  | cons hd tl ih =>
    intro gs s rng h
    rw [process_all]
    exact ih _ _ _ (process_decision_bedsInv gs s hd.1 hd.2 rng h)

theorem shocks_bedsInv (gs : GameState) (s : RoundSummary) (p : ℚ)
    (rng : Rng) (h : bedsInv gs) :
    bedsInv (apply_environment_shocks gs s p rng).gs := by
  obtain ⟨h0, h5⟩ := h
  unfold apply_environment_shocks
  split
  · exact ⟨h0, h5⟩
  · by_cases r1 : rng.f rng.pos < 0.20
    · simp only [r1, if_true]
      exact ⟨h0, h5⟩
    · by_cases r2 : rng.f rng.pos < 0.40
      · simp only [r1, r2, if_false, if_true]
        by_cases hbpos : 0 < gs.hospital.available_beds
        · simp only [hbpos, if_true]
          constructor
          · exact le_max_left _ _
          · show max 0 (gs.hospital.available_beds -
                max 1 (gs.hospital.available_beds / 2)) +
              (occupiedCount gs.patients : ℤ) ≤ MAX_BEDS
            have hred : 1 ≤ max 1 (gs.hospital.available_beds / 2) :=
              le_max_left _ _
            rcases le_total (gs.hospital.available_beds -
                max 1 (gs.hospital.available_beds / 2)) 0 with hc | hc
            · rw [max_eq_left hc]
              omega
            · rw [max_eq_right hc]
              omega
        · simp only [hbpos, if_false]
          exact ⟨h0, h5⟩
      · by_cases r3 : rng.f rng.pos < 0.60
        · simp only [r1, r2, r3, if_false, if_true]
          exact ⟨h0, h5⟩
        · by_cases r4 : rng.f (rng.pos + 1) < 0.5 <;>
            simp only [r1, r2, r3, r4, if_false, if_true] <;>
            exact ⟨h0, h5⟩

theorem deteriorate_occupy (p : Patient) (prob : ℚ) (rng : Rng) :
    isOccupying (deteriorate_severity_if_needed p prob rng).2.1 =
      isOccupying p := by
  unfold deteriorate_severity_if_needed
  by_cases h1 : p.is_alive = false ∨ p.is_treated = true ∨ p.has_left = true
  · rw [if_pos h1]
  · rw [if_neg h1]
    by_cases h2 : rng.f rng.pos < prob
    · by_cases h3 : severity_to_int p.severity_hidden_true <
          severity_to_int SeverityLevel.CRITICAL
      · simp [h2, h3, isOccupying]
      · simp [h2, h3]
    · simp [h2]

theorem det_pass_occupied (ps : List Patient) (prob : ℚ) :
    ∀ rng : Rng,
    occupiedCount (deterioration_pass ps prob rng).patients =
      occupiedCount ps := by
  induction ps with
  | nil =>
    intro rng
    rfl
  | cons a rest ih =>
    intro rng
    simp only [occupiedCount] at ih ⊢
    rw [deterioration_pass]
    split
    · simp [List.countP_cons, ih]
    · split
      · simp [List.countP_cons, ih]
      · by_cases hw : (deteriorate_severity_if_needed a prob rng).1 = true <;>
          simp [hw, List.countP_cons, ih, deteriorate_occupy]

/-- Under the bed invariant, the recompute step never needs its clamp: the
resulting bed counter equals the ceiling minus the occupied count. -/
theorem apply_beds_exact (gs : GameState) (ds : List (Nat × TriageDecision))
    (rng : Rng) (h : bedsInv gs) :
    (apply_player_decisions gs ds rng).2.1.hospital.available_beds =
      MAX_BEDS -
        (occupiedCount (apply_player_decisions gs ds rng).2.1.patients : ℤ) ∧
    (occupiedCount (apply_player_decisions gs ds rng).2.1.patients : ℤ) ≤
      MAX_BEDS := by
  have hsh : bedsInv (round_stage1 gs ds rng).gs :=
    shocks_bedsInv gs _ _ rng h
  have hst : bedsInv (round_stage2 gs ds rng).gs :=
    process_all_bedsInv ds _ _ _ hsh
  have hocc : occupiedCount (round_stage3 gs ds rng).patients =
      occupiedCount (round_stage2 gs ds rng).gs.patients := by
    rw [round_stage3]
    exact det_pass_occupied _ _ _
  have e1 : (apply_player_decisions gs ds rng).2.1.patients =
      (round_stage3 gs ds rng).patients := rfl
  have e2 : (apply_player_decisions gs ds rng).2.1.hospital.available_beds =
      max 0 (MAX_BEDS -
        (occupiedCount (round_stage3 gs ds rng).patients : ℤ)) := rfl
  rw [e1, e2, hocc]
  obtain ⟨hb0, hb5⟩ := hst
  rw [show MAX_BEDS = (5 : ℤ) from rfl] at hb5 ⊢
  constructor
  · omega
  · omega

theorem gen_loop_inv (sp : ℚ) (n : Nat) :
    ∀ (gs : GameState) (rng : Rng),
    (gen_patients_loop sp n gs rng).2.1.hospital = gs.hospital ∧
    occupiedCount (gen_patients_loop sp n gs rng).2.1.patients =
      occupiedCount gs.patients := by
  induction n with
  | zero =>
    intro gs rng
    exact ⟨rfl, rfl⟩
  | succ m ih =>
    intro gs rng
    rw [gen_patients_loop]
    obtain ⟨ih1, ih2⟩ := ih _ _
    refine ⟨ih1, ?_⟩
    rw [ih2]
    simp [occupiedCount, List.countP_append, isOccupying]

/-- Every state reachable through the engine's own operations satisfies
the bed invariant. -/
theorem reachable_bedsInv (gs : GameState) (h : Reachable gs) :
    bedsInv gs := by
  induction h with
  | init d =>
    constructor <;> norm_num [GameState.initial, occupiedCount, MAX_BEDS]
  | generate gs rng hr ih =>
    obtain ⟨g1, g2⟩ := gen_loop_inv (severe_probability gs.difficulty)
      (randint (patients_per_round gs.difficulty).1
        (patients_per_round gs.difficulty).2 rng).1 gs
      (randint (patients_per_round gs.difficulty).1
        (patients_per_round gs.difficulty).2 rng).2
    constructor
    · rw [show (generate_new_patients_for_round gs rng).2.1.hospital =
          gs.hospital from g1]
      exact ih.1
    · rw [show (generate_new_patients_for_round gs rng).2.1.hospital =
          gs.hospital from g1,
        show occupiedCount (generate_new_patients_for_round gs rng).2.1.patients
          = occupiedCount gs.patients from g2]
      exact ih.2
  | decisions gs ds rng hr ih =>
    obtain ⟨he, hle⟩ := apply_beds_exact gs ds rng ih
    constructor
    · rw [he]
      omega
    · rw [he]
      omega
  | nextRound gs hr ih => exact ih
  | record gs s hr ih => exact ih

/-- C2: for every reachable state, after apply_player_decisions the bed
counter is exactly the ceiling minus the alive-treated-present count, and
that count never exceeds the ceiling, so the defensive clamp in the
recompute step never fires. -/
theorem c2_beds_recompute_exact (gs : GameState) (h : Reachable gs)
    (ds : List (Nat × TriageDecision)) (rng : Rng) :
    (apply_player_decisions gs ds rng).2.1.hospital.available_beds =
      MAX_BEDS -
        (occupiedCount (apply_player_decisions gs ds rng).2.1.patients : ℤ) ∧
    (occupiedCount (apply_player_decisions gs ds rng).2.1.patients : ℤ) ≤
      MAX_BEDS :=
  apply_beds_exact gs ds rng (reachable_bedsInv gs h)

/-- C2 witness: the exactness theorem applied at the initial BASIC state
with an empty decision map and the zero draw stream. -/
theorem c2_beds_recompute_exact_witness :
    (apply_player_decisions (GameState.initial DifficultyLevel.BASIC) []
        (const_rng 0)).2.1.hospital.available_beds =
      MAX_BEDS - (occupiedCount (apply_player_decisions
        (GameState.initial DifficultyLevel.BASIC) []
        (const_rng 0)).2.1.patients : ℤ) ∧
    (occupiedCount (apply_player_decisions
        (GameState.initial DifficultyLevel.BASIC) []
        (const_rng 0)).2.1.patients : ℤ) ≤ MAX_BEDS :=
  c2_beds_recompute_exact (GameState.initial DifficultyLevel.BASIC)
    (Reachable.init DifficultyLevel.BASIC) [] (const_rng 0)

/-- C6 witness: the deterioration guarantees evaluated at a concrete
already-critical patient. -/
theorem c6_deterioration_safe_witness :
    severity_to_int critical_patient.severity_hidden_true ≤
      severity_to_int
        (deteriorate_severity_if_needed critical_patient 0.5
          (const_rng 0.1)).2.1.severity_hidden_true ∧
    severity_to_int
      (deteriorate_severity_if_needed critical_patient 0.5
        (const_rng 0.1)).2.1.severity_hidden_true ≤ 3 ∧
    (¬(critical_patient.is_alive = true ∧
        critical_patient.is_treated = false ∧
        critical_patient.has_left = false) →
      (deteriorate_severity_if_needed critical_patient 0.5
        (const_rng 0.1)).1 = false ∧
      (deteriorate_severity_if_needed critical_patient 0.5
        (const_rng 0.1)).2.1 = critical_patient) ∧
    ((deteriorate_severity_if_needed critical_patient 0.5
        (const_rng 0.1)).1 = true →
      severity_to_int
          (deteriorate_severity_if_needed critical_patient 0.5
            (const_rng 0.1)).2.1.severity_hidden_true =
        severity_to_int critical_patient.severity_hidden_true + 1) :=
  c6_deterioration_safe critical_patient 0.5 (const_rng 0.1)

/-- C7 witness: the noise-model description evaluated at a concrete MILD
patient on the BASIC tier with a constant 0.5 stream. -/
theorem c7_noisy_severity_witness :
    (DifficultyLevel.BASIC = DifficultyLevel.BASIC →
      (const_rng 0.5).f (const_rng 0.5).pos < 0.8 →
      noisy_visible_severity SeverityLevel.MILD DifficultyLevel.BASIC
          (const_rng 0.5) =
        (int_to_severity (severity_to_int SeverityLevel.MILD),
          ⟨(const_rng 0.5).f, (const_rng 0.5).pos + 1⟩)) ∧
    (DifficultyLevel.BASIC = DifficultyLevel.BASIC →
      0.8 ≤ (const_rng 0.5).f (const_rng 0.5).pos →
      noisy_visible_severity SeverityLevel.MILD DifficultyLevel.BASIC
          (const_rng 0.5) =
        (int_to_severity (severity_to_int SeverityLevel.MILD +
            (if (const_rng 0.5).f ((const_rng 0.5).pos + 1) < 0.5
              then (-1 : ℤ) else 1)),
          ⟨(const_rng 0.5).f, (const_rng 0.5).pos + 2⟩)) ∧
    (DifficultyLevel.BASIC = DifficultyLevel.STOCHASTIC →
      (const_rng 0.5).f (const_rng 0.5).pos < 0.6 →
      noisy_visible_severity SeverityLevel.MILD DifficultyLevel.BASIC
          (const_rng 0.5) =
        (int_to_severity (severity_to_int SeverityLevel.MILD),
          ⟨(const_rng 0.5).f, (const_rng 0.5).pos + 1⟩)) ∧
    (DifficultyLevel.BASIC = DifficultyLevel.STOCHASTIC →
      0.6 ≤ (const_rng 0.5).f (const_rng 0.5).pos →
      (const_rng 0.5).f (const_rng 0.5).pos < 0.9 →
      noisy_visible_severity SeverityLevel.MILD DifficultyLevel.BASIC
          (const_rng 0.5) =
        (int_to_severity (severity_to_int SeverityLevel.MILD +
            (if (const_rng 0.5).f ((const_rng 0.5).pos + 1) < 0.5
              then (-1 : ℤ) else 1)),
          ⟨(const_rng 0.5).f, (const_rng 0.5).pos + 2⟩)) ∧
    (DifficultyLevel.BASIC = DifficultyLevel.STOCHASTIC →
      0.9 ≤ (const_rng 0.5).f (const_rng 0.5).pos →
      noisy_visible_severity SeverityLevel.MILD DifficultyLevel.BASIC
          (const_rng 0.5) =
        (int_to_severity (severity_to_int SeverityLevel.MILD +
            (if (const_rng 0.5).f ((const_rng 0.5).pos + 1) < 0.5
              then (-2 : ℤ) else 2)),
          ⟨(const_rng 0.5).f, (const_rng 0.5).pos + 2⟩)) ∧
    (0 ≤ severity_to_int (noisy_visible_severity SeverityLevel.MILD
        DifficultyLevel.BASIC (const_rng 0.5)).1 ∧
      severity_to_int (noisy_visible_severity SeverityLevel.MILD
        DifficultyLevel.BASIC (const_rng 0.5)).1 ≤ 3) :=
  c7_noisy_severity SeverityLevel.MILD DifficultyLevel.BASIC (const_rng 0.5)

/-- C4 witness: a TreatNow submitted for the critical patient while the
hospital has zero staff, with a surviving draw. -/
theorem c4_coerced_treat_now_witness :
    (process_decision no_staff_state empty_summary 1
        TriageDecision.TREAT_NOW (const_rng 0.99)).summary.notes =
      empty_summary.notes ++ [coercion_note 1,
        explain_text 1 critical_patient.severity_visible
          critical_patient.severity_hidden_true TriageDecision.DEFER false
          (decide ((const_rng 0.99).f (const_rng 0.99).pos <
            death_probability critical_patient.severity_hidden_true false
            TriageDecision.DEFER))] ∧
    (process_decision no_staff_state empty_summary 1
        TriageDecision.TREAT_NOW (const_rng 0.99)).summary.patients_treated =
      empty_summary.patients_treated ∧
    (process_decision no_staff_state empty_summary 1
        TriageDecision.TREAT_NOW (const_rng 0.99)).gs.patients =
      updateFirst no_staff_state.patients 1 (fun _ =>
        if decide ((const_rng 0.99).f (const_rng 0.99).pos <
            death_probability critical_patient.severity_hidden_true false
            TriageDecision.DEFER) = true
        then { critical_patient with is_alive := false }
        else critical_patient) ∧
    get_patient_by_id
        (process_decision no_staff_state empty_summary 1
          TriageDecision.TREAT_NOW (const_rng 0.99)).gs 1 =
      some (if decide ((const_rng 0.99).f (const_rng 0.99).pos <
            death_probability critical_patient.severity_hidden_true false
            TriageDecision.DEFER) = true
        then { critical_patient with is_alive := false }
        else critical_patient) ∧
    (process_decision no_staff_state empty_summary 1
        TriageDecision.TREAT_NOW (const_rng 0.99)).gs.hospital =
      update_metrics_for_patient_outcome no_staff_state.hospital
        (decide ((const_rng 0.99).f (const_rng 0.99).pos <
          death_probability critical_patient.severity_hidden_true false
          TriageDecision.DEFER))
        TriageDecision.DEFER ∧
    death_probability critical_patient.severity_hidden_true false
        TriageDecision.DEFER =
      base_rate critical_patient.severity_hidden_true * 2 ∧
    (∀ (ds : List (Nat × TriageDecision)) (rng2 : Rng),
      (apply_player_decisions no_staff_state ds rng2).1.decisions = ds) :=
  c4_coerced_treat_now no_staff_state empty_summary 1 (const_rng 0.99)
    critical_patient rfl rfl rfl (Or.inl (by norm_num [no_staff_state]))

/-- C5 witness: a Transfer of the critical patient under full capacity,
with a surviving draw. -/
theorem c5_transfer_early_resolution_witness :
    (process_decision full_capacity_state empty_summary 1
        TriageDecision.TRANSFER (const_rng 0.99)).gs.patients =
      updateFirst full_capacity_state.patients 1 (fun _ =>
        { critical_patient with
            has_left := true
            is_alive := !(decide ((const_rng 0.99).f (const_rng 0.99).pos <
              death_probability critical_patient.severity_hidden_true false
              TriageDecision.TRANSFER)) }) ∧
    get_patient_by_id
        (process_decision full_capacity_state empty_summary 1
          TriageDecision.TRANSFER (const_rng 0.99)).gs 1 =
      some { critical_patient with
        has_left := true
        is_alive := !(decide ((const_rng 0.99).f (const_rng 0.99).pos <
          death_probability critical_patient.severity_hidden_true false
          TriageDecision.TRANSFER)) } ∧
    (process_decision full_capacity_state empty_summary 1
        TriageDecision.TRANSFER (const_rng 0.99)).summary.notes =
      empty_summary.notes ++ [explain_text 1
        critical_patient.severity_visible
        critical_patient.severity_hidden_true TriageDecision.TRANSFER false
        (decide ((const_rng 0.99).f (const_rng 0.99).pos <
          death_probability critical_patient.severity_hidden_true false
          TriageDecision.TRANSFER))] ∧
    (process_decision full_capacity_state empty_summary 1
        TriageDecision.TRANSFER (const_rng 0.99)).gs.hospital =
      update_metrics_for_patient_outcome full_capacity_state.hospital
        (decide ((const_rng 0.99).f (const_rng 0.99).pos <
          death_probability critical_patient.severity_hidden_true false
          TriageDecision.TRANSFER))
        TriageDecision.TRANSFER ∧
    death_probability critical_patient.severity_hidden_true false
        TriageDecision.TRANSFER =
      base_rate critical_patient.severity_hidden_true * 1.5 ∧
    (process_decision full_capacity_state empty_summary 1
        TriageDecision.TRANSFER (const_rng 0.99)).rng =
      ⟨(const_rng 0.99).f, (const_rng 0.99).pos + 1⟩ ∧
    (update_metrics_for_patient_outcome full_capacity_state.hospital
        (decide ((const_rng 0.99).f (const_rng 0.99).pos <
          death_probability critical_patient.severity_hidden_true false
          TriageDecision.TRANSFER))
        TriageDecision.TRANSFER).reputation =
      clampQ ((if decide ((const_rng 0.99).f (const_rng 0.99).pos <
            death_probability critical_patient.severity_hidden_true false
            TriageDecision.TRANSFER) = true
          then full_capacity_state.hospital.reputation - 2
          else full_capacity_state.hospital.reputation + 0.5) +
        (if full_capacity_state.hospital.available_beds ≤ 0 ∨
            full_capacity_state.hospital.staff_capacity_this_round ≤ 0
          then 0.5 else -1)) :=
  c5_transfer_early_resolution full_capacity_state empty_summary 1
    (const_rng 0.99) critical_patient rfl rfl rfl

/-- C8 amended-claim witness: the bed-outage branch at five beds with a
0.3 roll — beds drop to three and both notes appear. -/
theorem c8_amended_bed_outage_witness :
    (0 < stoch_five_beds_state.hospital.available_beds →
      (apply_environment_shocks stoch_five_beds_state empty_summary 0.35
          (const_rng 0.3)).gs.hospital.available_beds =
        max 0 (stoch_five_beds_state.hospital.available_beds -
          max 1 (stoch_five_beds_state.hospital.available_beds / 2)) ∧
      (apply_environment_shocks stoch_five_beds_state empty_summary 0.35
          (const_rng 0.3)).summary.notes = empty_summary.notes ++
        [bed_outage_scenario,
          bed_outage_event stoch_five_beds_state.hospital.available_beds
            (max 0 (stoch_five_beds_state.hospital.available_beds -
              max 1 (stoch_five_beds_state.hospital.available_beds / 2)))]) ∧
    (stoch_five_beds_state.hospital.available_beds ≤ 0 →
      (apply_environment_shocks stoch_five_beds_state empty_summary 0.35
        (const_rng 0.3)).gs = stoch_five_beds_state ∧
      (apply_environment_shocks stoch_five_beds_state empty_summary 0.35
        (const_rng 0.3)).summary = empty_summary) ∧
    (apply_environment_shocks stoch_five_beds_state empty_summary 0.35
      (const_rng 0.3)).prob = 0.35 ∧
    (apply_environment_shocks stoch_five_beds_state empty_summary 0.35
        (const_rng 0.3)).rng.pos = (const_rng 0.3).pos + 1 :=
  c8_amended_bed_outage stoch_five_beds_state empty_summary 0.35
    (const_rng 0.3) rfl (by norm_num [const_rng]) (by norm_num [const_rng])

end Triage
